import Mathlib

set_option linter.unusedVariables false

/- Shallow embedding of the sqreen rule callback engine (src/sqreen/rules.py)
   and of the AWS Lambda request-context callback
   (src/sqreen/ecosystem/adapters/frameworks/aws_lambda.py).

   Modelling conventions:
   - Python dynamic values are abstracted by a type parameter V.
   - Runtime side effects (storage.observe, LOGGER.debug, storage.trace, the
     mutable per-callback call_counts dict) are threaded through an explicit
     RTState record.  storage.observe appends to RTState.observed,
     LOGGER.debug appends a tag to RTState.logs, the scoped timer
     storage.trace(name) appends an enter event when the scope opens and a
     close event when it exits.
   - A Python exception raised by a phase handler is an Except.error value in
     the handler result; code that cannot raise returns plain values.
   - The request-scoped storage is read-only during one phase invocation, so
     its getters are modelled as fields of a RuntimeStorage record held in the
     callback configuration. -/

/-- Runner interface consumed by the callbacks: runner.budget,
runner.performance_metrics and runner.performance_metrics_settings.enabled(). -/
structure Runner where
  budget : Option Int
  performance_metrics : Bool
  performance_metrics_settings_enabled : Bool
deriving DecidableEq

/-- A current request held by the request-scoped storage; raw_caller is the
backtrace snapshot consumed by record_attack. -/
structure CurrentRequest (V : Type) where
  val : V
  raw_caller : List V
deriving DecidableEq

/-- Read interface of the request-scoped storage (runtime_storage), as used by
rules.py: get_current_request, get_current_response, get_current_args,
get_request_store, get_whitelist_match and request_sq_time. -/
structure RuntimeStorage (V : Type) where
  get_current_request : Option (CurrentRequest V)
  get_current_response : Option V
  get_current_args : V → V
  get_request_store : V
  get_whitelist_match : Option Bool
  request_sq_time : Option Int

/-- Payload of storage.observe("attacks", ...) built by record_attack. -/
structure AttackPayload (V : Type) where
  infos : Option V
  rulespack_id : String
  rule_name : String
  beta : Bool
  block : Bool
  test : Bool
  attack_type : Option String
  time : Int
  backtrace : Option (List V)
deriving DecidableEq

/-- Payload of storage.observe("sqreen_exceptions", ...) built by
record_exception. -/
structure ExcPayload (V : Type) where
  message : String
  klass : String
  infos : List (String × V)
  rule_name : String
  rulespack_id : String
  test : Bool
  time : Int
  backtrace : List String
deriving DecidableEq

/-- One record sent to the request-scoped storage event sink; the three
constructors are the three observe categories used by rules.py. -/
inductive Observed (V : Type) where
  | attacks (p : AttackPayload V)
  | observations (metric_name : String) (at_time : Int) (key : String) (value : Int)
  | sqreen_exceptions (p : ExcPayload V)
deriving DecidableEq

/-- Events of the scoped timer storage.trace(name): the scope opening and the
scope closing. -/
inductive TraceEv where
  | enter (name : String)
  | close (name : String)
deriving DecidableEq

/-- Mutable runtime world threaded through one or more phase invocations:
the clock, the storage event sink, the debug log, the trace scope log and the
per-callback call_counts dict (a map from lifecycle name to counter). -/
structure RTState (V : Type) where
  now : Int
  observed : List (Observed V)
  logs : List String
  trace_log : List TraceEv
  call_counts : String → Int

/-- Keyword phase options passed by the Runner to a phase handler; rules.py
reads options.get("result") for post and options.get("exc_info") otherwise. -/
structure PhaseOptions (V : Type) where
  result : Option V
  exc_info : Option V
deriving DecidableEq

/-- Result of one phase handler invocation: a raised exception or an optional
return value. -/
abbrev PhaseResult (V : Type) := Except V (Option V)

/-- A lifecycle phase handler: (instance, args, kwargs, options) plus the
runtime state, producing a result and the updated state. -/
abbrev Handler (V : Type) := V → V → V → PhaseOptions V → RTState V → PhaseResult V × RTState V

/-- Static configuration of a BaseCallback after __init__ (rules.py lines
29-63), together with the class constants SUPPORTS_BUDGET and INTERRUPTIBLE. -/
structure BaseCallbackState (V : Type) where
  rule_name : String
  rulespack_id : String
  runner : Option Runner
  data : V
  beta : Bool
  block : Bool
  test : Bool
  attack_type : Option String
  payload_sections : List String
  priority : Int
  storage : RuntimeStorage V
  SUPPORTS_BUDGET : Bool
  INTERRUPTIBLE : Bool

/-- The BaseCallback.SECTIONS class constant. -/
def BaseCallback.SECTIONS : List String :=
  ["request", "response", "params", "headers", "context"]

/-- Optional constructor arguments of BaseCallback.__init__; none models a
Python None (or an absent argument). -/
structure BaseCallbackInit (V : Type) where
  rule_name : String
  rulespack_id : String
  runner : Option Runner
  beta : Option Bool
  block : Option Bool
  test : Option Bool
  data : Option V
  payload_sections : Option (List String)
  priority : Option Int
  attack_type : Option String
  storage : RuntimeStorage V

/-- Port of BaseCallback.__init__ (rules.py lines 29-63).  empty_dict models
the fresh dict of the Python default `data or {}`; the booleans use the
`x or False` truthiness defaulting; payload_sections defaults to SECTIONS when
None; the priority is `priority if priority is not None else 100`. -/
def BaseCallback.init (empty_dict : V) (SUPPORTS_BUDGET INTERRUPTIBLE : Bool)
    (a : BaseCallbackInit V) : BaseCallbackState V :=
  { rule_name := a.rule_name
    rulespack_id := a.rulespack_id
    runner := a.runner
    data := a.data.getD empty_dict
    beta := a.beta.getD false
    block := a.block.getD false
    test := a.test.getD false
    attack_type := a.attack_type
    payload_sections := a.payload_sections.getD BaseCallback.SECTIONS
    priority := match a.priority with
      | some p => p
      | none => 100
    storage := a.storage
    SUPPORTS_BUDGET := SUPPORTS_BUDGET
    INTERRUPTIBLE := INTERRUPTIBLE }

/-- Port of the BaseCallback.collaborative property (rules.py lines 65-68):
`return self.SUPPORTS_BUDGET`. -/
def BaseCallback.collaborative {V : Type} (cb : BaseCallbackState V) : Bool :=
  cb.SUPPORTS_BUDGET

/-- Port of the BaseCallback.skippable property (rules.py lines 70-73):
`return self.INTERRUPTIBLE`. -/
def BaseCallback.skippable {V : Type} (cb : BaseCallbackState V) : Bool :=
  cb.INTERRUPTIBLE

/-- Port of the BaseCallback.whitelisted property (rules.py lines 75-80):
`return self.storage.get_whitelist_match() or False`. -/
def BaseCallback.whitelisted {V : Type} (cb : BaseCallbackState V) : Bool :=
  cb.storage.get_whitelist_match.getD false

/-- Port of the BaseCallback.performance_monitoring_enabled property
(rules.py lines 82-88). -/
def BaseCallback.performance_monitoring_enabled {V : Type}
    (cb : BaseCallbackState V) : Bool :=
  match cb.runner with
  | some r => r.performance_metrics && r.performance_metrics_settings_enabled
  | none => false

/-- The callback keyword arguments seen by get_remaining_budget; the
override_budget field holds the value stored under the
"__sqreen_override_budget" key (none when the key is absent) and rest stands
for the other entries of the dict. -/
structure CallbackKwargs (V : Type) where
  override_budget : Option Int
  rest : V
deriving DecidableEq

/-- Port of BaseCallback.get_remaining_budget (rules.py lines 113-125).  The
dict mutation performed by `callback_kwargs.pop` is returned as the second
component; the implicit Python `return None` at the end is the none result. -/
def BaseCallback.get_remaining_budget {V : Type} (cb : BaseCallbackState V)
    (callback_kwargs : Option (CallbackKwargs V)) :
    Option Int × Option (CallbackKwargs V) :=
  let budget_branch : Option Int :=
    if cb.runner.isSome && BaseCallback.performance_monitoring_enabled cb then
      match cb.runner.bind Runner.budget with
      | some budget => some (budget - cb.storage.request_sq_time.getD 0)
      | none => none
    else none
  match callback_kwargs with
  | some kw =>
    let override_budget := kw.override_budget
    let kw2 : CallbackKwargs V := { kw with override_budget := none }
    match override_budget with
    | some o => (some o, some kw2)
    | none => (budget_branch, some kw2)
  | none => (budget_branch, none)

/-- Port of BaseCallback.record_attack (rules.py lines 127-146): builds the
attack payload, attaches the caller backtrace when the "context" payload
section is enabled and the storage holds a current request, logs and observes.
Note that the whitelist flag is not consulted here. -/
def BaseCallback.record_attack {V : Type} (cb : BaseCallbackState V)
    (infos : Option V) (at_time : Option Int) (s : RTState V) : RTState V :=
  let t := at_time.getD s.now
  let backtrace : Option (List V) :=
    if ("context") ∈ cb.payload_sections then
      match cb.storage.get_current_request with
      | some current_request => some current_request.raw_caller
      | none => none
    else none
  let payload : AttackPayload V :=
    { infos := infos
      rulespack_id := cb.rulespack_id
      rule_name := cb.rule_name
      beta := cb.beta
      block := cb.block
      test := cb.test
      attack_type := cb.attack_type
      time := t
      backtrace := backtrace }
  { s with logs := s.logs ++ ["observed attack"]
           observed := s.observed ++ [Observed.attacks payload] }

/-- Port of BaseCallback.record_observation (rules.py lines 148-154): builds
the (metric_name, at, key, value) payload, logs and observes. -/
def BaseCallback.record_observation {V : Type} (cb : BaseCallbackState V)
    (metric_name : String) (key : String) (value : Int) (at_time : Option Int)
    (s : RTState V) : RTState V :=
  let t := at_time.getD s.now
  { s with logs := s.logs ++ ["observed metric"]
           observed := s.observed ++ [Observed.observations metric_name t key value] }

/-- The exc_info triple passed to record_exception: the class name of
exc_info[0], str(exc_info[1]) and the raw traceback exc_info[2]. -/
structure ExcInfoTriple (V : Type) where
  klass_name : String
  value_str : String
  tb : V
deriving DecidableEq

/-- Port of BaseCallback.record_exception (rules.py lines 161-187).
exc_exception_infos models the call exc.exception_infos(): an ok value is the
returned dict, an error value is any exception raised by the lookup or the
call; the Python `try ... except Exception: pass` around `infos.update`
swallows that error.  raw_traceback_formatter and traceback_formatter are the
external formatters of remote_exception (not under src, assumed total per
their contract).  The result is Except-valued so that a raising path, if one
existed, would be visible; merging dicts is modelled by list append. -/
def BaseCallback.record_exception {V : Type} (cb : BaseCallbackState V)
    (raw_traceback_formatter : V → List String)
    (traceback_formatter : List V → List String)
    (exc_exception_infos : Except V (List (String × V)))
    (exc_info : ExcInfoTriple V) (stack : Option (List V))
    (infos : Option (List (String × V))) (at_time : Option Int)
    (s : RTState V) : Except V (RTState V) :=
  let infos0 := infos.getD []
  let t := at_time.getD s.now
  let infos1 := match exc_exception_infos with
    | Except.ok more => infos0 ++ more
    | Except.error _ => infos0
  let bt0 := raw_traceback_formatter exc_info.tb
  let bt := match stack with
    | some st => traceback_formatter st ++ bt0
    | none => bt0
  let payload : ExcPayload V :=
    { message := exc_info.value_str
      klass := exc_info.klass_name
      infos := infos1
      rule_name := cb.rule_name
      rulespack_id := cb.rulespack_id
      test := cb.test
      time := t
      backtrace := bt }
  Except.ok { s with logs := s.logs ++ ["observed exception"]
                     observed := s.observed ++ [Observed.sqreen_exceptions payload] }

/-- The named bindings handed to the condition evaluator by
check_condition_wrapper (rules.py lines 215-224). -/
structure BindingArgs (V : Type) where
  request : Option (CurrentRequest V)
  response : Option V
  inst : V
  args : V
  kwargs : V
  data : V
  rv : Option V
  request_store : V

/-- Static configuration of a RuleCallback after __init__ (rules.py lines
315-373).  conditions maps a lifecycle name to the evaluation function of its
condition tree; none stands for an absent or empty condition tree, for which
_apply_conditions installs no wrapper (is_condition_empty).  The external
ConditionEvaluator contract is evaluate(bindings) giving true, false or null,
modelled as Option Bool.  debug_log_enabled models
LOGGER.isEnabledFor(logging.DEBUG). -/
structure RuleCallbackCfg (V : Type) extends BaseCallbackState V where
  hook_module : String
  hook_name : String
  conditions : String → Option (BindingArgs V → Option Bool)
  call_count_interval : Int
  debug_log_enabled : Bool

/-- The binding_eval_args dict built by check_condition_wrapper (rules.py
lines 215-224): the rv entry is options.get("result") for the post lifecycle
and options.get("exc_info") otherwise. -/
def mk_binding_eval_args {V : Type} (callback : RuleCallbackCfg V)
    (lifecycle : String) (inst args kwargs : V) (options : PhaseOptions V) :
    BindingArgs V :=
  { request := callback.storage.get_current_request
    response := callback.storage.get_current_response
    inst := inst
    args := callback.storage.get_current_args args
    kwargs := kwargs
    data := callback.data
    rv := if lifecycle = "post" then options.result else options.exc_info
    request_store := callback.storage.get_request_store }

/-- Port of check_condition_wrapper (rules.py lines 199-243): evaluates the
condition on the bindings; a false or null result logs and returns None
without calling the wrapped handler; any other (true) result calls the wrapped
handler with the original arguments. -/
def check_condition_wrapper {V : Type} (wrapped : Handler V)
    (callback : RuleCallbackCfg V) (condition : BindingArgs V → Option Bool)
    (lifecycle : String) : Handler V :=
  fun inst args kwargs options s =>
    let binding_eval_args :=
      mk_binding_eval_args callback lifecycle inst args kwargs options
    let condition_result := condition binding_eval_args
    if condition_result = some false ∨ condition_result = none then
      (Except.ok none, { s with logs := s.logs ++ ["not running " ++ lifecycle] })
    else
      wrapped inst args kwargs options s

/-- Port of call_count_wrapper (rules.py lines 246-270): reads the per-phase
counter; when counter + 1 equals the interval it records one observation
carrying the interval value and resets the counter to zero, otherwise it
increments the counter; in both cases it then calls the wrapped handler. -/
def call_count_wrapper {V : Type} (wrapped : Handler V)
    (callback : RuleCallbackCfg V) (lifecycle : String)
    (observation_key : String) : Handler V :=
  fun inst args kwargs options s =>
    let current_count := s.call_counts lifecycle
    if current_count + 1 = callback.call_count_interval then
      let s1 := BaseCallback.record_observation callback.toBaseCallbackState
        ("sqreen_call_counts") observation_key callback.call_count_interval none s
      let s2 := { s1 with call_counts :=
        fun l => if l = lifecycle then 0 else s1.call_counts l }
      wrapped inst args kwargs options s2
    else
      let s1 := { s with call_counts :=
        fun l => if l = lifecycle then s.call_counts l + 1 else s.call_counts l }
      wrapped inst args kwargs options s1

/-- Port of perf_monitoring_wrapper (rules.py lines 273-289): runs the wrapped
handler inside the scoped timer `with storage.trace(name)`; the scope is
closed after the wrapped handler returns, on the normal path and on the
exception path alike (the result, raised or returned, passes through). -/
def perf_monitoring_wrapper {V : Type} (wrapped : Handler V) (name : String) :
    Handler V :=
  fun inst args kwargs options s =>
    let s1 := { s with trace_log := s.trace_log ++ [TraceEv.enter name] }
    let r := wrapped inst args kwargs options s1
    (r.1, { r.2 with trace_log := r.2.trace_log ++ [TraceEv.close name] })

/-- Port of debug_log_wrapper (rules.py lines 292-300): logs the phase entry
and delegates to the wrapped handler with the same arguments. -/
def debug_log_wrapper {V : Type} (wrapped : Handler V) (lifecycle : String) :
    Handler V :=
  fun inst args kwargs options s =>
    wrapped inst args kwargs options
      { s with logs := s.logs ++ ["running " ++ lifecycle] }

/-- The table of lifecycle phase attributes of one callback object: the
Python attribute lookup getattr(self, lifecycle, None). -/
abbrev PhaseTable (V : Type) := String → Option (Handler V)

/-- Python setattr(self, lifecycle, wrapped) on the phase table. -/
def phase_setattr {V : Type} (t : PhaseTable V) (lifecycle : String)
    (h : Handler V) : PhaseTable V :=
  fun l => if l = lifecycle then some h else t l

/-- Port of the RuleCallback.lifecycle_methods property (rules.py lines
435-438): the lifecycles among pre, post, failing that the callback object
defines. -/
def RuleCallback.lifecycle_methods {V : Type} (t : PhaseTable V) : List String :=
  (["pre", "post", "failing"]).filter (fun l => (t l).isSome)

/-- One decoration pass over the phase table: for each lifecycle in methods,
when the attribute is present and the pass wants to wrap it (upd gives some),
the attribute is rebound to the wrapped handler.  This is the shared shape of
_apply_debug_log, _apply_conditions, _apply_call_count and
_apply_perf_monitoring. -/
def apply_pass {V : Type} (upd : String → Handler V → Option (Handler V))
    (methods : List String) (t : PhaseTable V) : PhaseTable V :=
  methods.foldl (fun tab l =>
    match tab l with
    | some h =>
      match upd l h with
      | some h2 => phase_setattr tab l h2
      | none => tab
    | none => tab) t

/-- Port of BaseCallback._apply_debug_log (rules.py lines 90-98): when debug
logging is enabled, wraps every present lifecycle method in
debug_log_wrapper. -/
def apply_debug_log {V : Type} (cb : RuleCallbackCfg V) (methods : List String)
    (t : PhaseTable V) : PhaseTable V :=
  if cb.debug_log_enabled then
    apply_pass (fun l h => some (debug_log_wrapper h l)) methods t
  else t

/-- Port of RuleCallback._apply_conditions (rules.py lines 401-414): wraps
every present lifecycle method that has a non-empty condition tree in
check_condition_wrapper. -/
def apply_conditions {V : Type} (cb : RuleCallbackCfg V) (methods : List String)
    (t : PhaseTable V) : PhaseTable V :=
  apply_pass
    (fun l h => (cb.conditions l).map
      (fun c => check_condition_wrapper h cb c l))
    methods t

/-- The observation key built by _apply_call_count (rules.py lines 425-429):
rulespack_id/rule_name/lifecycle. -/
def call_count_observation_key {V : Type} (cb : RuleCallbackCfg V)
    (lifecycle : String) : String :=
  cb.rulespack_id ++ "/" ++ cb.rule_name ++ "/" ++ lifecycle

/-- Port of RuleCallback._apply_call_count (rules.py lines 416-433): does
nothing when call_count_interval is 0, otherwise wraps every present
lifecycle method in call_count_wrapper with the derived observation key. -/
def apply_call_count {V : Type} (cb : RuleCallbackCfg V) (methods : List String)
    (t : PhaseTable V) : PhaseTable V :=
  if cb.call_count_interval = 0 then t
  else
    apply_pass
      (fun l h => some (call_count_wrapper h cb l (call_count_observation_key cb l)))
      methods t

/-- The trace metric name built by _apply_perf_monitoring (rules.py line 108):
sq.rule_name.lifecycle. -/
def perf_trace_name {V : Type} (cb : RuleCallbackCfg V) (lifecycle : String) :
    String :=
  "sq." ++ cb.rule_name ++ "." ++ lifecycle

/-- Port of BaseCallback._apply_perf_monitoring (rules.py lines 100-111):
does nothing unless performance monitoring is enabled, otherwise wraps every
present lifecycle method in perf_monitoring_wrapper. -/
def apply_perf_monitoring {V : Type} (cb : RuleCallbackCfg V)
    (methods : List String) (t : PhaseTable V) : PhaseTable V :=
  if BaseCallback.performance_monitoring_enabled cb.toBaseCallbackState then
    apply_pass (fun l h => some (perf_monitoring_wrapper h (perf_trace_name cb l)))
      methods t
  else t

/-- Port of the wrapper installation sequence of RuleCallback.__init__
(rules.py lines 369-373): the lifecycle methods are computed once, then the
four decoration passes run in order: debug log, conditions, call count,
performance monitoring.  Each pass rebinds the attribute, so a later pass
wraps the result of the earlier ones: the debug wrapper ends up innermost and
the performance wrapper outermost. -/
def RuleCallback.install_wrappers {V : Type} (cb : RuleCallbackCfg V)
    (t : PhaseTable V) : PhaseTable V :=
  let methods := RuleCallback.lifecycle_methods t
  apply_perf_monitoring cb methods
    (apply_call_count cb methods
      (apply_conditions cb methods
        (apply_debug_log cb methods t)))

/-- The composition that install_wrappers produces around one phase handler,
written layer by layer, innermost first: debug log wrapper (when debug
logging is enabled), condition gate (when a non-empty condition tree is
declared), call count sampler (when the interval is non-zero); a layer whose
guard is false is omitted, leaving the previous handler untouched. -/
def inner_pipeline {V : Type} (cb : RuleCallbackCfg V) (l : String)
    (m : Handler V) : Handler V :=
  let h0 := if cb.debug_log_enabled then debug_log_wrapper m l else m
  let h1 := match cb.conditions l with
    | some c => check_condition_wrapper h0 cb c l
    | none => h0
  if cb.call_count_interval = 0 then h1
  else call_count_wrapper h1 cb l (call_count_observation_key cb l)

/-- The full effective composition: the performance monitor (when enabled)
wraps the inner pipeline and is outermost. -/
def guarded_pipeline {V : Type} (cb : RuleCallbackCfg V) (l : String)
    (m : Handler V) : Handler V :=
  if BaseCallback.performance_monitoring_enabled cb.toBaseCallbackState then
    perf_monitoring_wrapper (inner_pipeline cb l m) (perf_trace_name cb l)
  else inner_pipeline cb l m

/-- Modelled from the spec: the composition order the specification asserts
for the wrapper pipeline, with the debug trace outermost (spec section 4.2:
condition gate, then call count sampler, then performance monitor, then,
outermost, the debug trace).  Used only to compare with the order the code
actually builds. -/
def spec_claimed_pipeline {V : Type} (cb : RuleCallbackCfg V) (l : String)
    (m : Handler V) : Handler V :=
  let h1 := match cb.conditions l with
    | some c => check_condition_wrapper m cb c l
    | none => m
  let h2 := if cb.call_count_interval = 0 then h1
    else call_count_wrapper h1 cb l (call_count_observation_key cb l)
  let h3 := if BaseCallback.performance_monitoring_enabled cb.toBaseCallbackState then
    perf_monitoring_wrapper h2 (perf_trace_name cb l)
  else h2
  if cb.debug_log_enabled then debug_log_wrapper h3 l else h3

/- AWS Lambda adapter: the request-context callback
   (src/sqreen/ecosystem/adapters/frameworks/aws_lambda.py, lines 31 and
   231-245). -/

/-- A value stored in a Lambda event dict: a string or some other value. -/
inductive LVal where
  | str (s : String)
  | other (n : Nat)
deriving DecidableEq

/-- A Lambda event: the top-level dict, as an association list. -/
abbrev LEvent := List (String × LVal)

/-- Python event.get(key). -/
def eget (ev : LEvent) (key : String) : Option LVal :=
  (ev.find? (fun kv => kv.1 = key)).map Prod.snd

/-- Python frozenset(event.keys()), the shape fingerprint used by the
UNSUPPORTED_LAMBDA_EVENTS dedup set. -/
def lambda_event_shape (ev : LEvent) : Finset String :=
  (ev.map Prod.fst).toFinset

/-- The classified error raised on an unsupported event; it carries the event
(its exception_infos returns the event). -/
structure UnsupportedAWSLambdaEvent where
  event : LEvent
deriving DecidableEq

/-- Which request object _store_request received. -/
inductive StoredReq where
  | v2
  | v1
deriving DecidableEq

/-- Port of RecordRequestContextAWSLambda.pre (aws_lambda.py lines 231-245).
The module-global set UNSUPPORTED_LAMBDA_EVENTS is passed in and returned as
explicit state.  A version 2.0 event stores an AWSLambdaProxyV2Request, a
version 1.0 event or an event with an httpMethod key stores an
AWSLambdaProxyV1Request; otherwise the event shape is fingerprinted and
UnsupportedAWSLambdaEvent is raised only when the shape is new. -/
def RecordRequestContextAWSLambda_pre (seen : Finset (Finset String))
    (event : LEvent) :
    Except UnsupportedAWSLambdaEvent (Option StoredReq) × Finset (Finset String) :=
  let version := eget event ("version")
  if version = some (LVal.str ("2.0")) then
    (Except.ok (some StoredReq.v2), seen)
  else if version = some (LVal.str ("1.0")) ∨ ("httpMethod") ∈ event.map Prod.fst then
    (Except.ok (some StoredReq.v1), seen)
  else
    let event_type := lambda_event_shape event
    if event_type ∈ seen then
      (Except.ok none, seen)
    else
      (Except.error { event := event }, insert event_type seen)

/-- An event that none of the three supported branches accepts. -/
def lambda_event_unsupported (ev : LEvent) : Prop :=
  ¬ eget ev ("version") = some (LVal.str ("2.0")) ∧
  ¬ (eget ev ("version") = some (LVal.str ("1.0")) ∨ ("httpMethod") ∈ ev.map Prod.fst)

instance (ev : LEvent) : Decidable (lambda_event_unsupported ev) := by
  unfold lambda_event_unsupported
  infer_instance

/- Helper projections and state transformers used by the pipeline theorems. -/

/-- The attack records among the observed events. -/
def observed_attacks {V : Type} (s : RTState V) : List (Observed V) :=
  s.observed.filter (fun o => match o with
    | Observed.attacks _ => true
    | _ => false)

/-- The values of the sqreen_call_counts observations carrying the given key,
in emission order. -/
def sampler_obs {V : Type} (key : String) (s : RTState V) : List Int :=
  s.observed.filterMap (fun o => match o with
    | Observed.observations m _ k v =>
      if m = "sqreen_call_counts" ∧ k = key then some v else none
    | _ => none)

/-- The state change performed by the call count sampler before it hands over
to the handler it wraps: reset plus one observation at the interval, plain
increment otherwise. -/
def call_count_update {V : Type} (cb : RuleCallbackCfg V) (lifecycle : String)
    (observation_key : String) (s : RTState V) : RTState V :=
  if s.call_counts lifecycle + 1 = cb.call_count_interval then
    let s1 := BaseCallback.record_observation cb.toBaseCallbackState
      ("sqreen_call_counts") observation_key cb.call_count_interval none s
    { s1 with call_counts := fun l => if l = lifecycle then 0 else s1.call_counts l }
  else
    { s with call_counts := fun l => if l = lifecycle then s.call_counts l + 1 else s.call_counts l }

/-- The state change the outer decorators (performance monitor entry, call
count sampler) perform before the condition gate, or the phase logic, runs. -/
def pipeline_outer_entry {V : Type} (cb : RuleCallbackCfg V) (l : String)
    (s : RTState V) : RTState V :=
  let s1 := if BaseCallback.performance_monitoring_enabled cb.toBaseCallbackState then
    { s with trace_log := s.trace_log ++ [TraceEv.enter (perf_trace_name cb l)] }
  else s
  if cb.call_count_interval = 0 then s1
  else call_count_update cb l (call_count_observation_key cb l) s1

/-- The state the phase logic observes when the condition gate lets the call
through: the outer decorator effects plus the debug entry log. -/
def pipeline_entry_update {V : Type} (cb : RuleCallbackCfg V) (l : String)
    (s : RTState V) : RTState V :=
  let s1 := pipeline_outer_entry cb l s
  if cb.debug_log_enabled then { s1 with logs := s1.logs ++ ["running " ++ l] } else s1

/-- The state change performed after the inner pipeline returns: the
performance monitor closes its trace scope. -/
def pipeline_exit_update {V : Type} (cb : RuleCallbackCfg V) (l : String)
    (s : RTState V) : RTState V :=
  if BaseCallback.performance_monitoring_enabled cb.toBaseCallbackState then
    { s with trace_log := s.trace_log ++ [TraceEv.close (perf_trace_name cb l)] }
  else s

/- Structural lemmas about the decoration passes. -/

/-- One fold step of apply_pass changes the table only at the lifecycle it
processes. -/
theorem apply_pass_step_other {V : Type}
    (upd : String → Handler V → Option (Handler V)) (tab : PhaseTable V)
    (l l2 : String) (hne : l2 ≠ l) :
    (match tab l with
      | some h =>
        match upd l h with
        | some h2 => phase_setattr tab l h2
        | none => tab
      | none => tab) l2 = tab l2 := by
  cases htab : tab l with
  | none => simp [htab]
  | some h =>
    cases hupd : upd l h with
    | none => simp [htab, hupd]
    | some h2 => simp [htab, hupd, phase_setattr, hne]

/-- A lifecycle outside the processed list is untouched by apply_pass. -/
theorem apply_pass_not_mem {V : Type}
    (upd : String → Handler V → Option (Handler V)) (methods : List String)
    (t : PhaseTable V) (l : String) (hl : l ∉ methods) :
    apply_pass upd methods t l = t l := by
  induction methods generalizing t with
  | nil => rfl
  | cons a as ih =>
    have hne : l ≠ a := fun h => hl (h ▸ List.mem_cons_self a as)
    have hl2 : l ∉ as := fun h => hl (List.mem_cons_of_mem a h)
    unfold apply_pass
    rw [List.foldl_cons]
    have := ih (t := (match t a with
      | some h =>
        match upd a h with
        | some h2 => phase_setattr t a h2
        | none => t
      | none => t)) hl2
    unfold apply_pass at this
    rw [this]
    exact apply_pass_step_other upd t a l hne

/-- Value of apply_pass at a processed lifecycle: the attribute is rebound to
the wrapped handler when the pass wraps it, and kept otherwise. -/
theorem apply_pass_mem {V : Type}
    (upd : String → Handler V → Option (Handler V)) (methods : List String)
    (t : PhaseTable V) (l : String) (m : Handler V)
    (hnd : methods.Nodup) (hl : l ∈ methods) (ht : t l = some m) :
    apply_pass upd methods t l = some ((upd l m).getD m) := by
  induction methods generalizing t with
  | nil => cases hl
  | cons a as ih =>
    unfold apply_pass
    rw [List.foldl_cons]
    by_cases hla : l = a
    · subst hla
      have hnotas : l ∉ as := (List.nodup_cons.mp hnd).1
      have hstep : (match t l with
          | some h =>
            match upd l h with
            | some h2 => phase_setattr t l h2
            | none => t
          | none => t) l = some ((upd l m).getD m) := by
        rw [ht]
        cases hupd : upd l m with
        | none =>
          simp only [hupd]
          simpa using ht
        | some h2 =>
          simp only [hupd]
          simp [phase_setattr]
      have hrest := apply_pass_not_mem upd as (t := (match t l with
          | some h =>
            match upd l h with
            | some h2 => phase_setattr t l h2
            | none => t
          | none => t)) l hnotas
      unfold apply_pass at hrest
      rw [hrest, hstep]
    · have hlas : l ∈ as := by
        rcases List.mem_cons.mp hl with h | h
        · exact absurd h hla
        · exact h
      have hstep : (match t a with
          | some h =>
            match upd a h with
            | some h2 => phase_setattr t a h2
            | none => t
          | none => t) l = some m := by
        rw [← ht]
        exact apply_pass_step_other upd t a l hla
      have := ih (t := (match t a with
          | some h =>
            match upd a h with
            | some h2 => phase_setattr t a h2
            | none => t
          | none => t)) (List.nodup_cons.mp hnd).2 hlas hstep
      unfold apply_pass at this
      exact this

/-- The lifecycle methods list has no duplicates. -/
theorem lifecycle_methods_nodup {V : Type} (t : PhaseTable V) :
    (RuleCallback.lifecycle_methods t).Nodup := by
  apply List.Nodup.filter
  decide

/-- Membership in the lifecycle methods list. -/
theorem mem_lifecycle_methods {V : Type} (t : PhaseTable V) (l : String)
    (m : Handler V) (hl : l ∈ ["pre", "post", "failing"]) (ht : t l = some m) :
    l ∈ RuleCallback.lifecycle_methods t := by
  unfold RuleCallback.lifecycle_methods
  rw [List.mem_filter]
  exact ⟨hl, by rw [ht]; rfl⟩

/-- The effective handler installed by RuleCallback for a present phase is the
guarded composition: debug wrapper innermost, then condition gate, then call
count sampler, then performance monitor outermost, each layer present exactly
when its guard holds. -/
theorem install_wrappers_eq {V : Type} (cb : RuleCallbackCfg V)
    (t : PhaseTable V) (l : String) (m : Handler V)
    (hl : l ∈ ["pre", "post", "failing"]) (ht : t l = some m) :
    RuleCallback.install_wrappers cb t l = some (guarded_pipeline cb l m) := by
  have hnd := lifecycle_methods_nodup t
  have hmem := mem_lifecycle_methods t l m hl ht
  set methods := RuleCallback.lifecycle_methods t with hmethods
  -- stage 1: debug log
  have h1 : apply_debug_log cb methods t l =
      some (if cb.debug_log_enabled then debug_log_wrapper m l else m) := by
    unfold apply_debug_log
    by_cases hdbg : cb.debug_log_enabled
    · rw [if_pos hdbg, apply_pass_mem _ methods t l m hnd hmem ht]
      simp [hdbg]
    · rw [if_neg hdbg, ht]
      simp [hdbg]
  set m1 := if cb.debug_log_enabled then debug_log_wrapper m l else m with hm1
  -- stage 2: conditions
  have h2 : apply_conditions cb methods (apply_debug_log cb methods t) l =
      some (match cb.conditions l with
        | some c => check_condition_wrapper m1 cb c l
        | none => m1) := by
    unfold apply_conditions
    rw [apply_pass_mem _ methods _ l m1 hnd hmem h1]
    cases hc : cb.conditions l <;> simp [hc]
  set m2 := (match cb.conditions l with
    | some c => check_condition_wrapper m1 cb c l
    | none => m1) with hm2
  -- stage 3: call count
  have h3 : apply_call_count cb methods
      (apply_conditions cb methods (apply_debug_log cb methods t)) l =
      some (if cb.call_count_interval = 0 then m2
        else call_count_wrapper m2 cb l (call_count_observation_key cb l)) := by
    unfold apply_call_count
    by_cases hcc : cb.call_count_interval = 0
    · rw [if_pos hcc, h2, if_pos hcc]
    · rw [if_neg hcc, apply_pass_mem _ methods _ l m2 hnd hmem h2, if_neg hcc]
      simp
  set m3 := (if cb.call_count_interval = 0 then m2
    else call_count_wrapper m2 cb l (call_count_observation_key cb l)) with hm3
  -- stage 4: performance monitoring
  have h4 : RuleCallback.install_wrappers cb t l =
      some (if BaseCallback.performance_monitoring_enabled cb.toBaseCallbackState then
        perf_monitoring_wrapper m3 (perf_trace_name cb l) else m3) := by
    unfold RuleCallback.install_wrappers
    rw [← hmethods]
    show apply_perf_monitoring cb methods _ l = _
    unfold apply_perf_monitoring
    by_cases hperf : BaseCallback.performance_monitoring_enabled cb.toBaseCallbackState
    · rw [if_pos hperf, apply_pass_mem _ methods _ l m3 hnd hmem h3, if_pos hperf]
      simp
    · rw [if_neg hperf, h3, if_neg hperf]
  rw [h4, hm3, hm2, hm1]
  rfl

/- Behavioural lemmas about the composed pipeline. -/

/-- The call count wrapper always invokes the handler it wraps, on the state
transformed by call_count_update. -/
theorem call_count_wrapper_runs {V : Type} (wrapped : Handler V)
    (cb : RuleCallbackCfg V) (lifecycle observation_key : String)
    (inst args kwargs : V) (options : PhaseOptions V) (s : RTState V) :
    call_count_wrapper wrapped cb lifecycle observation_key inst args kwargs options s =
      wrapped inst args kwargs options
        (call_count_update cb lifecycle observation_key s) := by
  unfold call_count_wrapper call_count_update
  by_cases h : s.call_counts lifecycle + 1 = cb.call_count_interval <;> simp [h]

/-- Running the composed pipeline when the condition gate is absent or lets
the call through: the phase logic runs exactly once, with the same instance,
args, kwargs and options the effective handler received, on the entry-updated
state, and its result passes through unchanged apart from the closing of the
trace scope. -/
theorem guarded_pipeline_runs {V : Type} (cb : RuleCallbackCfg V) (l : String)
    (m : Handler V) (inst args kwargs : V) (options : PhaseOptions V)
    (s : RTState V)
    (hc : ∀ c, cb.conditions l = some c →
      c (mk_binding_eval_args cb l inst args kwargs options) = some true) :
    guarded_pipeline cb l m inst args kwargs options s =
      ((m inst args kwargs options (pipeline_entry_update cb l s)).1,
       pipeline_exit_update cb l
         (m inst args kwargs options (pipeline_entry_update cb l s)).2) := by
  have hdbgstep : ∀ s1 : RTState V,
      (if cb.debug_log_enabled then debug_log_wrapper m l else m) inst args kwargs options s1 =
      m inst args kwargs options
        (if cb.debug_log_enabled then { s1 with logs := s1.logs ++ ["running " ++ l] } else s1) := by
    intro s1
    by_cases hdbg : cb.debug_log_enabled <;> simp [hdbg, debug_log_wrapper]
  have hgate : ∀ s1 : RTState V,
      (match cb.conditions l with
        | some c => check_condition_wrapper
            (if cb.debug_log_enabled then debug_log_wrapper m l else m) cb c l
        | none => (if cb.debug_log_enabled then debug_log_wrapper m l else m))
        inst args kwargs options s1 =
      m inst args kwargs options
        (if cb.debug_log_enabled then { s1 with logs := s1.logs ++ ["running " ++ l] } else s1) := by
    intro s1
    cases hcond : cb.conditions l with
    | none => exact hdbgstep s1
    | some c =>
      have hct := hc c hcond
      have hpass : check_condition_wrapper
          (if cb.debug_log_enabled then debug_log_wrapper m l else m) cb c l
          inst args kwargs options s1 =
          (if cb.debug_log_enabled then debug_log_wrapper m l else m)
          inst args kwargs options s1 := by
        unfold check_condition_wrapper
        simp only [hct]
        simp
      exact hpass.trans (hdbgstep s1)
  unfold guarded_pipeline pipeline_entry_update pipeline_outer_entry pipeline_exit_update
  by_cases hperf : BaseCallback.performance_monitoring_enabled cb.toBaseCallbackState <;>
    by_cases hcc : cb.call_count_interval = 0 <;>
    simp only [hperf, hcc, if_true, if_false, Bool.false_eq_true, if_pos, if_neg,
      perf_monitoring_wrapper, inner_pipeline, ite_true, ite_false,
      not_false_iff] <;>
    first
      | (rw [hgate])
      | (rw [call_count_wrapper_runs, hgate])

/-- Running the composed pipeline when the condition gate rejects the call
(false or null): nothing below the gate runs; the result is ok-none and the
state change consists only of the outer decorator effects plus the skip log
and the trace scope closing. -/
theorem guarded_pipeline_skips {V : Type} (cb : RuleCallbackCfg V) (l : String)
    (m : Handler V) (c : BindingArgs V → Option Bool) (inst args kwargs : V)
    (options : PhaseOptions V) (s : RTState V)
    (hcond : cb.conditions l = some c)
    (hr : c (mk_binding_eval_args cb l inst args kwargs options) = some false ∨
      c (mk_binding_eval_args cb l inst args kwargs options) = none) :
    guarded_pipeline cb l m inst args kwargs options s =
      (Except.ok none,
       pipeline_exit_update cb l
         { pipeline_outer_entry cb l s with
           logs := (pipeline_outer_entry cb l s).logs ++ ["not running " ++ l] }) := by
  have hgate : ∀ s1 : RTState V,
      (match cb.conditions l with
        | some c2 => check_condition_wrapper
            (if cb.debug_log_enabled then debug_log_wrapper m l else m) cb c2 l
        | none => (if cb.debug_log_enabled then debug_log_wrapper m l else m))
        inst args kwargs options s1 =
      (Except.ok none, { s1 with logs := s1.logs ++ ["not running " ++ l] }) := by
    intro s1
    rw [hcond]
    show check_condition_wrapper
        (if cb.debug_log_enabled then debug_log_wrapper m l else m) cb c l
        inst args kwargs options s1 = _
    unfold check_condition_wrapper
    have : (c (mk_binding_eval_args cb l inst args kwargs options) = some false ∨
        c (mk_binding_eval_args cb l inst args kwargs options) = none) = True := by
      simp [hr]
    simp only [this, if_true]
  unfold guarded_pipeline pipeline_outer_entry pipeline_exit_update
  by_cases hperf : BaseCallback.performance_monitoring_enabled cb.toBaseCallbackState <;>
    by_cases hcc : cb.call_count_interval = 0 <;>
    simp only [hperf, hcc, if_true, if_false, Bool.false_eq_true, if_pos, if_neg,
      perf_monitoring_wrapper, inner_pipeline, ite_true, ite_false,
      not_false_iff] <;>
    first
      | (rw [hgate])
      | (rw [call_count_wrapper_runs, hgate])

/-- Observed events after the call count update: one sqreen_call_counts
observation is appended exactly when the counter reaches the interval. -/
theorem call_count_update_observed {V : Type} (cb : RuleCallbackCfg V)
    (l key : String) (s : RTState V) :
    (call_count_update cb l key s).observed =
      s.observed ++
        (if s.call_counts l + 1 = cb.call_count_interval then
          [Observed.observations ("sqreen_call_counts") s.now key cb.call_count_interval]
        else []) := by
  unfold call_count_update BaseCallback.record_observation
  by_cases h : s.call_counts l + 1 = cb.call_count_interval <;> simp [h]

/-- The counter map after the call count update. -/
theorem call_count_update_counts {V : Type} (cb : RuleCallbackCfg V)
    (l key : String) (s : RTState V) :
    (call_count_update cb l key s).call_counts =
      (fun l2 => if l2 = l then
        (if s.call_counts l + 1 = cb.call_count_interval then 0 else s.call_counts l + 1)
      else s.call_counts l2) := by
  unfold call_count_update BaseCallback.record_observation
  by_cases h : s.call_counts l + 1 = cb.call_count_interval <;>
    funext l2 <;> by_cases h2 : l2 = l <;> simp [h, h2]

/-- The call count update does not move the clock. -/
theorem call_count_update_now {V : Type} (cb : RuleCallbackCfg V)
    (l key : String) (s : RTState V) :
    (call_count_update cb l key s).now = s.now := by
  unfold call_count_update BaseCallback.record_observation
  by_cases h : s.call_counts l + 1 = cb.call_count_interval <;> simp [h]

/-- Observed events after the outer decorator entry effects: only the
possible sampler observation is appended. -/
theorem pipeline_outer_entry_observed {V : Type} (cb : RuleCallbackCfg V)
    (l : String) (s : RTState V) :
    (pipeline_outer_entry cb l s).observed =
      s.observed ++
        (if cb.call_count_interval ≠ 0 ∧ s.call_counts l + 1 = cb.call_count_interval then
          [Observed.observations ("sqreen_call_counts") s.now
            (call_count_observation_key cb l) cb.call_count_interval]
        else []) := by
  unfold pipeline_outer_entry
  by_cases hperf : BaseCallback.performance_monitoring_enabled cb.toBaseCallbackState <;>
    by_cases hcc : cb.call_count_interval = 0 <;>
    simp [hperf, hcc, call_count_update_observed]

/-- The phase logic entry state appends no observed event beyond the possible
sampler observation. -/
theorem pipeline_entry_update_observed {V : Type} (cb : RuleCallbackCfg V)
    (l : String) (s : RTState V) :
    (pipeline_entry_update cb l s).observed = (pipeline_outer_entry cb l s).observed := by
  unfold pipeline_entry_update
  by_cases hdbg : cb.debug_log_enabled <;> simp [hdbg]

/-- The pipeline exit update appends no observed event. -/
theorem pipeline_exit_update_observed {V : Type} (cb : RuleCallbackCfg V)
    (l : String) (s : RTState V) :
    (pipeline_exit_update cb l s).observed = s.observed := by
  unfold pipeline_exit_update
  by_cases hperf : BaseCallback.performance_monitoring_enabled cb.toBaseCallbackState <;>
    simp [hperf]

/-- Appending observation records leaves the attack projection unchanged. -/
theorem observed_attacks_append_obs {V : Type} (xs : List (Observed V))
    (metric : String) (t : Int) (key : String) (v : Int) :
    (xs ++ [Observed.observations metric t key v]).filter (fun o => match o with
      | Observed.attacks _ => true
      | _ => false) =
    xs.filter (fun o => match o with
      | Observed.attacks _ => true
      | _ => false) := by
  rw [List.filter_append]
  simp

/-- The attack projection only depends on the observed list. -/
theorem observed_attacks_def {V : Type} (s : RTState V) :
    observed_attacks s = s.observed.filter (fun o => match o with
      | Observed.attacks _ => true
      | _ => false) := rfl

/-- Attacks recorded when the pipeline lets the phase logic run on the entry
state: none are added by the decorators themselves. -/
theorem observed_attacks_entry {V : Type} (cb : RuleCallbackCfg V) (l : String)
    (s : RTState V) :
    observed_attacks (pipeline_entry_update cb l s) = observed_attacks s := by
  rw [observed_attacks_def, observed_attacks_def, pipeline_entry_update_observed,
    pipeline_outer_entry_observed]
  by_cases h : cb.call_count_interval ≠ 0 ∧ s.call_counts l + 1 = cb.call_count_interval
  · rw [if_pos h]
    exact observed_attacks_append_obs s.observed _ _ _ _
  · rw [if_neg h]
    simp

/-- Attacks after the exit update: unchanged. -/
theorem observed_attacks_exit {V : Type} (cb : RuleCallbackCfg V) (l : String)
    (s : RTState V) :
    observed_attacks (pipeline_exit_update cb l s) = observed_attacks s := by
  rw [observed_attacks_def, observed_attacks_def, pipeline_exit_update_observed]

/- Arithmetic of the call counter. -/

/-- Counter arithmetic at a reset step: when the remainder is about to reach
the interval, the successor remainder is zero and the quotient grows by one. -/
theorem int_counter_reset (n : Nat) (K : Int) (hK : 0 < K)
    (h : (n : Int) % K + 1 = K) :
    ((n + 1 : Nat) : Int) % K = 0 ∧ ((n + 1 : Nat) : Int) / K = (n : Int) / K + 1 := by
  have h2 : (n : Int) = K * ((n : Int) / K) + (n : Int) % K := (Int.ediv_add_emod _ _).symm
  have hsum : ((n + 1 : Nat) : Int) = K * ((n : Int) / K + 1) := by
    push_cast
    rw [mul_add, mul_one]
    linarith
  constructor
  · rw [hsum]
    exact Int.mul_emod_right K _
  · rw [hsum]
    exact Int.mul_ediv_cancel_left _ (ne_of_gt hK)

/-- Counter arithmetic at an increment step: below the interval the remainder
just grows by one and the quotient is unchanged. -/
theorem int_counter_incr (n : Nat) (K : Int) (hK : 0 < K)
    (h : (n : Int) % K + 1 ≠ K) :
    ((n + 1 : Nat) : Int) % K = (n : Int) % K + 1 ∧
    ((n + 1 : Nat) : Int) / K = (n : Int) / K := by
  have h2 : (n : Int) = K * ((n : Int) / K) + (n : Int) % K := (Int.ediv_add_emod _ _).symm
  have hlt : (n : Int) % K < K := Int.emod_lt_of_pos _ hK
  have hge : 0 ≤ (n : Int) % K := Int.emod_nonneg _ (ne_of_gt hK)
  have hlt2 : (n : Int) % K + 1 < K := lt_of_le_of_ne (by linarith) h
  have hsum : ((n + 1 : Nat) : Int) = ((n : Int) % K + 1) + K * ((n : Int) / K) := by
    push_cast
    linarith
  constructor
  · rw [hsum, Int.add_mul_emod_self_left]
    exact Int.emod_eq_of_lt (by linarith) hlt2
  · rw [hsum, Int.add_mul_ediv_left _ _ (ne_of_gt hK),
      Int.ediv_eq_zero_of_lt (by linarith) hlt2]
    ring

/-- Repeated invocation of one handler with fixed call arguments, threading
the state. -/
def iterate_handler {V : Type} (h : Handler V) (inst args kwargs : V)
    (options : PhaseOptions V) : Nat → RTState V → RTState V
  | 0, s => s
  | Nat.succ n, s =>
    (h inst args kwargs options (iterate_handler h inst args kwargs options n s)).2

/-- Sampler observations after the call count update: the interval value is
appended exactly at a reset. -/
theorem call_count_update_sampler {V : Type} (cb : RuleCallbackCfg V)
    (l key : String) (s : RTState V) :
    sampler_obs key (call_count_update cb l key s) =
      sampler_obs key s ++
        (if s.call_counts l + 1 = cb.call_count_interval then [cb.call_count_interval] else []) := by
  unfold call_count_update BaseCallback.record_observation sampler_obs
  by_cases h : s.call_counts l + 1 = cb.call_count_interval <;>
    simp [h, List.filterMap_append]

/-- Invariant of the call count sampler under iteration: starting from a zero
counter and no sampler observations, after n invocations the counter equals
n modulo the interval and the sampler observations are exactly one copy of
the interval value per completed interval. -/
theorem call_count_iterate_invariant {V : Type} (cb : RuleCallbackCfg V)
    (l : String) (wrapped : Handler V) (inst args kwargs : V)
    (options : PhaseOptions V) (s0 : RTState V)
    (hK : 0 < cb.call_count_interval)
    (hw_counts : ∀ i a k o s, ((wrapped i a k o s).2).call_counts = s.call_counts)
    (hw_obs : ∀ i a k o s,
      sampler_obs (call_count_observation_key cb l) ((wrapped i a k o s).2) =
      sampler_obs (call_count_observation_key cb l) s)
    (h0 : s0.call_counts l = 0)
    (hobs0 : sampler_obs (call_count_observation_key cb l) s0 = []) :
    ∀ n : Nat,
      (iterate_handler (call_count_wrapper wrapped cb l (call_count_observation_key cb l))
        inst args kwargs options n s0).call_counts l = (n : Int) % cb.call_count_interval ∧
      sampler_obs (call_count_observation_key cb l)
        (iterate_handler (call_count_wrapper wrapped cb l (call_count_observation_key cb l))
          inst args kwargs options n s0) =
        List.replicate (((n : Int) / cb.call_count_interval).toNat) cb.call_count_interval := by
  intro n
  induction n with
  | zero =>
    constructor
    · simpa [iterate_handler] using h0
    · simpa [iterate_handler] using hobs0
  | succ n ih =>
    have hstep : iterate_handler
        (call_count_wrapper wrapped cb l (call_count_observation_key cb l))
        inst args kwargs options (n + 1) s0 =
        (wrapped inst args kwargs options
          (call_count_update cb l (call_count_observation_key cb l)
            (iterate_handler (call_count_wrapper wrapped cb l (call_count_observation_key cb l))
              inst args kwargs options n s0))).2 := by
      show (call_count_wrapper wrapped cb l (call_count_observation_key cb l)
        inst args kwargs options _).2 = _
      rw [call_count_wrapper_runs]
    set S := iterate_handler
      (call_count_wrapper wrapped cb l (call_count_observation_key cb l))
      inst args kwargs options n s0 with hS
    by_cases hcase : (n : Int) % cb.call_count_interval + 1 = cb.call_count_interval
    · have harith := int_counter_reset n cb.call_count_interval hK hcase
      constructor
      · rw [hstep, hw_counts, call_count_update_counts]
        simp only [if_pos rfl, ih.1, hcase, if_pos]
        exact harith.1.symm
      · rw [hstep, hw_obs, call_count_update_sampler, ih.1, ih.2, if_pos hcase,
          harith.2]
        have hq : 0 ≤ (n : Int) / cb.call_count_interval :=
          Int.ediv_nonneg (Int.natCast_nonneg n) (le_of_lt hK)
        rw [Int.toNat_add hq (by norm_num)]
        simp [List.replicate_succ']
    · have harith := int_counter_incr n cb.call_count_interval hK hcase
      constructor
      · rw [hstep, hw_counts, call_count_update_counts]
        simp only [if_pos rfl, ih.1, hcase, if_neg, if_false]
        exact harith.1.symm
      · rw [hstep, hw_obs, call_count_update_sampler, ih.1, ih.2, if_neg hcase,
          harith.2]
        simp

/- Concrete fixtures used by witnesses and counterexamples. -/

/-- A trivial storage over the unit value domain. -/
def storageU : RuntimeStorage Unit :=
  { get_current_request := none
    get_current_response := none
    get_current_args := fun a => a
    get_request_store := ()
    get_whitelist_match := none
    request_sq_time := none }

/-- An empty initial runtime state. -/
def s0U : RTState Unit :=
  { now := 0, observed := [], logs := [], trace_log := [], call_counts := fun _ => 0 }

/-- Empty phase options. -/
def optsU : PhaseOptions Unit := { result := none, exc_info := none }

/-- A phase handler that does nothing. -/
def mNull : Handler Unit := fun _ _ _ _ s => (Except.ok none, s)

/-- A baseline callback configuration over the unit value domain. -/
def baseU : BaseCallbackState Unit :=
  { rule_name := "rule"
    rulespack_id := "rp"
    runner := none
    data := ()
    beta := false
    block := false
    test := false
    attack_type := none
    payload_sections := BaseCallback.SECTIONS
    priority := 100
    storage := storageU
    SUPPORTS_BUDGET := false
    INTERRUPTIBLE := true }

/-- Claim C10: a callback constructed without an explicit priority (argument
absent or None) gets priority 100; an explicit priority, including 0, is
preserved unchanged, so the default never overrides a supplied value. -/
theorem C10_priority_default {V : Type} (empty_dict : V) (sb intr : Bool)
    (a : BaseCallbackInit V) :
    (a.priority = none → (BaseCallback.init empty_dict sb intr a).priority = 100) ∧
    (∀ p : Int, a.priority = some p →
      (BaseCallback.init empty_dict sb intr a).priority = p) := by
  constructor
  · intro h
    simp [BaseCallback.init, h]
  · intro p h
    simp [BaseCallback.init, h]

/-- Constructor arguments with an explicit priority of 0. -/
def initArgsP0 : BaseCallbackInit Unit :=
  { rule_name := "r"
    rulespack_id := "rp"
    runner := none
    beta := none
    block := none
    test := none
    data := none
    payload_sections := none
    priority := some 0
    attack_type := none
    storage := storageU }

/-- Constructor arguments with no priority. -/
def initArgsPnone : BaseCallbackInit Unit := { initArgsP0 with priority := none }

/-- Witness for C10 at priority 0 and at an absent priority. -/
theorem C10_priority_default_witness :
    (BaseCallback.init () false true initArgsP0).priority = 0 ∧
    (BaseCallback.init () false true initArgsPnone).priority = 100 :=
  ⟨(C10_priority_default () false true initArgsP0).2 0 rfl,
   (C10_priority_default () false true initArgsPnone).1 rfl⟩

/-- A callback that declares budget support while its runner is absent, so
performance monitoring is disabled. -/
def cbC6 : BaseCallbackState Unit := { baseU with SUPPORTS_BUDGET := true }

/-- Claim C6 counterexample: this callback is collaborative although
performance monitoring is disabled, refuting the claimed equivalence of
collaborative with budget support AND runner performance monitoring. -/
theorem C6_counterexample :
    BaseCallback.collaborative cbC6 = true ∧
    BaseCallback.performance_monitoring_enabled cbC6 = false ∧
    ¬ (BaseCallback.collaborative cbC6 = true ↔
      (cbC6.SUPPORTS_BUDGET = true ∧
        BaseCallback.performance_monitoring_enabled cbC6 = true)) := by
  decide

/-- Claim C6 (amended): collaborative is exactly the SUPPORTS_BUDGET class
constant, independent of the runner state; skippable is true unless the
callback is marked non-interruptible (INTERRUPTIBLE false). -/
theorem C6_collaborative_skippable {V : Type} (cb : BaseCallbackState V) :
    (BaseCallback.collaborative cb = true ↔ cb.SUPPORTS_BUDGET = true) ∧
    (BaseCallback.skippable cb = true ↔ ¬ cb.INTERRUPTIBLE = false) := by
  constructor
  · exact Iff.rfl
  · simp [BaseCallback.skippable]

/-- A runner with a configured budget but performance metrics disabled. -/
def runnerC4 : Runner :=
  { budget := some 10
    performance_metrics := false
    performance_metrics_settings_enabled := true }

/-- Storage reporting 3 units of elapsed request time. -/
def storageC4 : RuntimeStorage Unit := { storageU with request_sq_time := some 3 }

/-- A callback with budget 10 configured and elapsed time 3, but performance
monitoring disabled. -/
def cbC4 : BaseCallbackState Unit := { baseU with runner := some runnerC4, storage := storageC4 }

/-- Claim C4 counterexample: a request budget of 10 is configured and the
elapsed time is 3, yet get_remaining_budget returns none rather than 10 - 3,
because performance monitoring is disabled, a condition the claim omits. -/
theorem C4_counterexample :
    cbC4.runner.map Runner.budget = some (some 10) ∧
    cbC4.storage.request_sq_time = some 3 ∧
    (BaseCallback.get_remaining_budget cbC4 none).1 = none ∧
    (BaseCallback.get_remaining_budget cbC4 none).1 ≠ some (10 - 3) := by
  decide

/-- Claim C4 (amended): get_remaining_budget returns a present per-call
override and removes the override key from the options; otherwise, when
performance monitoring is enabled and a budget B is configured, it returns B
minus the elapsed request time; otherwise (no configured budget, or
performance monitoring disabled) it returns none. -/
theorem C4_get_remaining_budget {V : Type} (cb : BaseCallbackState V)
    (kw : Option (CallbackKwargs V)) :
    (∀ (kwv : CallbackKwargs V) (o : Int), kw = some kwv →
      kwv.override_budget = some o →
      BaseCallback.get_remaining_budget cb kw =
        (some o, some { kwv with override_budget := none })) ∧
    (∀ b : Int, (∀ kwv : CallbackKwargs V, kw = some kwv → kwv.override_budget = none) →
      BaseCallback.performance_monitoring_enabled cb = true →
      cb.runner.bind Runner.budget = some b →
      (BaseCallback.get_remaining_budget cb kw).1 =
        some (b - cb.storage.request_sq_time.getD 0)) ∧
    ((∀ kwv : CallbackKwargs V, kw = some kwv → kwv.override_budget = none) →
      (BaseCallback.performance_monitoring_enabled cb = false ∨
        cb.runner.bind Runner.budget = none) →
      (BaseCallback.get_remaining_budget cb kw).1 = none) := by
  have hrun : BaseCallback.performance_monitoring_enabled cb = true →
      cb.runner.isSome = true := by
    unfold BaseCallback.performance_monitoring_enabled
    cases cb.runner <;> simp
  refine ⟨?_, ?_, ?_⟩
  · intro kwv o hkw ho
    subst hkw
    simp [BaseCallback.get_remaining_budget, ho]
  · intro b hno hperf hb
    have hr := hrun hperf
    cases hkw : kw with
    | none =>
      simp [BaseCallback.get_remaining_budget, hr, hperf, hb]
    | some kwv =>
      have hov := hno kwv hkw
      subst hkw
      simp [BaseCallback.get_remaining_budget, hov, hr, hperf, hb]
  · intro hno hdis
    cases hkw : kw with
    | none =>
      rcases hdis with hperf | hb
      · simp [BaseCallback.get_remaining_budget, hperf]
      · cases hr : cb.runner.isSome <;>
          simp [BaseCallback.get_remaining_budget, hr, hb]
    | some kwv =>
      have hov := hno kwv hkw
      subst hkw
      rcases hdis with hperf | hb
      · simp [BaseCallback.get_remaining_budget, hov, hperf]
      · cases hr : cb.runner.isSome <;>
          simp [BaseCallback.get_remaining_budget, hov, hr, hb]

/-- A runner with a configured budget and performance metrics enabled. -/
def runnerC4w : Runner :=
  { budget := some 10
    performance_metrics := true
    performance_metrics_settings_enabled := true }

/-- A callback with budget 10, elapsed time 3 and monitoring enabled. -/
def cbC4w : BaseCallbackState Unit := { baseU with runner := some runnerC4w, storage := storageC4 }

/-- Call options carrying an override budget of 5. -/
def kwC4w : CallbackKwargs Unit := { override_budget := some 5, rest := () }

/-- Witness for C4 (amended): the override wins and is consumed; the budget
branch returns 10 - 3; no runner gives none. -/
theorem C4_get_remaining_budget_witness :
    BaseCallback.get_remaining_budget cbC4w (some kwC4w) =
      (some 5, some { kwC4w with override_budget := none }) ∧
    (BaseCallback.get_remaining_budget cbC4w none).1 = some (10 - 3) ∧
    (BaseCallback.get_remaining_budget baseU none).1 = none :=
  ⟨(C4_get_remaining_budget cbC4w (some kwC4w)).1 kwC4w 5 rfl rfl,
   (C4_get_remaining_budget cbC4w none).2.1 10
     (fun kwv h => Option.noConfusion h) rfl rfl,
   (C4_get_remaining_budget baseU none).2.2
     (fun kwv h => Option.noConfusion h) (Or.inl rfl)⟩

/-- Claim C8: record_exception is total: for every input, in particular a
failing exception_infos lookup or call and an omitted stack, it returns ok
and records exactly one sqreen_exceptions event tagged with the rule name and
rulespack id; a failing info extraction is swallowed, leaving the passed
infos untouched. -/
theorem C8_record_exception {V : Type} (cb : BaseCallbackState V)
    (rfmt : V → List String) (sfmt : List V → List String)
    (einfos : Except V (List (String × V))) (einfo : ExcInfoTriple V)
    (stack : Option (List V)) (infos : Option (List (String × V)))
    (at_time : Option Int) (s : RTState V) :
    ∃ p : ExcPayload V,
      BaseCallback.record_exception cb rfmt sfmt einfos einfo stack infos at_time s =
        Except.ok { s with logs := s.logs ++ ["observed exception"],
                           observed := s.observed ++ [Observed.sqreen_exceptions p] } ∧
      p.rule_name = cb.rule_name ∧
      p.rulespack_id = cb.rulespack_id ∧
      p.infos = (match einfos with
        | Except.ok more => infos.getD [] ++ more
        | Except.error _ => infos.getD []) := by
  refine ⟨_, rfl, rfl, rfl, rfl⟩

/-- Claim C9: an unsupported Lambda event whose shape is unseen raises the
classified UnsupportedAWSLambdaEvent error and marks the shape seen; any
later unsupported event of the same shape no longer raises and leaves the
dedup set unchanged, so the error fires exactly once per distinct shape. -/
theorem C9_lambda_unsupported_dedup (seen : Finset (Finset String)) (ev : LEvent)
    (hu : lambda_event_unsupported ev) (hs : lambda_event_shape ev ∉ seen) :
    RecordRequestContextAWSLambda_pre seen ev =
      (Except.error { event := ev }, insert (lambda_event_shape ev) seen) ∧
    (∀ ev2 : LEvent, lambda_event_unsupported ev2 →
      lambda_event_shape ev2 = lambda_event_shape ev →
      RecordRequestContextAWSLambda_pre (insert (lambda_event_shape ev) seen) ev2 =
        (Except.ok none, insert (lambda_event_shape ev) seen)) := by
  obtain ⟨h1, h2⟩ := hu
  constructor
  · simp only [RecordRequestContextAWSLambda_pre]
    rw [if_neg h1, if_neg h2, if_neg hs]
  · intro ev2 hu2 hsh
    obtain ⟨h1b, h2b⟩ := hu2
    simp only [RecordRequestContextAWSLambda_pre]
    rw [if_neg h1b, if_neg h2b,
      if_pos (by rw [hsh]; exact Finset.mem_insert_self _ _)]

/-- An unsupported Lambda event (an S3-style Records event). -/
def evC9 : LEvent := [(("Records"), LVal.str ("x"))]

/-- A second unsupported event with the same shape but different values. -/
def evC9b : LEvent := [(("Records"), LVal.other 3)]

/-- Witness for C9: the first Records event raises, the second one of the
same shape does not. -/
theorem C9_lambda_unsupported_dedup_witness :
    RecordRequestContextAWSLambda_pre ∅ evC9 =
      (Except.error { event := evC9 }, insert (lambda_event_shape evC9) ∅) ∧
    RecordRequestContextAWSLambda_pre (insert (lambda_event_shape evC9) ∅) evC9b =
      (Except.ok none, insert (lambda_event_shape evC9) ∅) :=
  ⟨(C9_lambda_unsupported_dedup ∅ evC9 (by decide) (by decide)).1,
   (C9_lambda_unsupported_dedup ∅ evC9 (by decide) (by decide)).2 evC9b
     (by decide) (by decide)⟩

/-- Attacks after the outer decorator entry effects: unchanged, the sampler
emits observations only. -/
theorem observed_attacks_outer {V : Type} (cb : RuleCallbackCfg V) (l : String)
    (s : RTState V) :
    observed_attacks (pipeline_outer_entry cb l s) = observed_attacks s := by
  rw [observed_attacks_def, observed_attacks_def, pipeline_outer_entry_observed]
  by_cases h : cb.call_count_interval ≠ 0 ∧ s.call_counts l + 1 = cb.call_count_interval
  · rw [if_pos h]
    exact observed_attacks_append_obs s.observed _ _ _ _
  · rw [if_neg h]
    simp

/-- A rule callback with a condition tree on pre that always evaluates false,
a call count interval of 1, no debug logging and no performance monitoring. -/
def condFalse : BindingArgs Unit → Option Bool := fun _ => some false

/-- Configuration for the C1 counterexample: condition false, interval 1. -/
def cbC1 : RuleCallbackCfg Unit :=
  { toBaseCallbackState := baseU
    hook_module := "m"
    hook_name := "f"
    conditions := fun l => if l = "pre" then some condFalse else none
    call_count_interval := 1
    debug_log_enabled := false }

/-- A phase table exposing only a pre handler that does nothing. -/
def tPreNull : PhaseTable Unit := fun l => if l = ("pre") then some mNull else none

/-- Claim C1 counterexample: with a non-empty condition tree that evaluates to
false and a call count interval of 1, invoking the effective pre handler does
return no decision, yet a sampling observation is recorded by that very
invocation: the call count sampler sits outside the condition gate, refuting
the claim that a skipped invocation records no observation. -/
theorem C1_counterexample :
    cbC1.conditions ("pre") = some condFalse ∧
    condFalse (mk_binding_eval_args cbC1 ("pre") () () () optsU) = some false ∧
    (RuleCallback.install_wrappers cbC1 tPreNull ("pre")).map
      (fun h => ((h () () () optsU s0U).1, (h () () () optsU s0U).2.observed)) =
      some (Except.ok none,
        [Observed.observations ("sqreen_call_counts") 0
          (call_count_observation_key cbC1 ("pre")) 1]) := by
  refine ⟨rfl, rfl, rfl⟩

/-- Claim C1 (amended): for a phase with a non-empty condition tree, when the
condition evaluates to false or null the effective handler returns no decision
(ok none), does not run the phase logic (its output does not depend on it),
records no attack and no observed event beyond the sampling observation the
call count sampler may emit, since that sampler sits outside the condition
gate; when the condition evaluates to true, the phase logic runs exactly once
with the same instance, args, kwargs and options the effective handler
received, and only the decorator state updates surround it. -/
theorem C1_condition_gate {V : Type} (cb : RuleCallbackCfg V) (t : PhaseTable V)
    (l : String) (m : Handler V) (c : BindingArgs V → Option Bool)
    (inst args kwargs : V) (options : PhaseOptions V) (s : RTState V)
    (hl : l ∈ ["pre", "post", "failing"]) (ht : t l = some m)
    (hcond : cb.conditions l = some c) :
    ∀ h : Handler V, RuleCallback.install_wrappers cb t l = some h →
    ((c (mk_binding_eval_args cb l inst args kwargs options) = some false ∨
      c (mk_binding_eval_args cb l inst args kwargs options) = none) →
      (h inst args kwargs options s).1 = Except.ok none ∧
      (h inst args kwargs options s).2.observed =
        s.observed ++
          (if cb.call_count_interval ≠ 0 ∧
              s.call_counts l + 1 = cb.call_count_interval then
            [Observed.observations ("sqreen_call_counts") s.now
              (call_count_observation_key cb l) cb.call_count_interval]
          else []) ∧
      (∀ m2 : Handler V, guarded_pipeline cb l m2 inst args kwargs options s =
        h inst args kwargs options s)) ∧
    (c (mk_binding_eval_args cb l inst args kwargs options) = some true →
      h inst args kwargs options s =
        ((m inst args kwargs options (pipeline_entry_update cb l s)).1,
         pipeline_exit_update cb l
           (m inst args kwargs options (pipeline_entry_update cb l s)).2)) := by
  intro h hh
  rw [install_wrappers_eq cb t l m hl ht] at hh
  injection hh with hh
  subst hh
  constructor
  · intro hr
    have hskip := guarded_pipeline_skips cb l m c inst args kwargs options s hcond hr
    refine ⟨by rw [hskip], ?_, ?_⟩
    · rw [hskip]
      show (pipeline_exit_update cb l _).observed = _
      rw [pipeline_exit_update_observed]
      show (pipeline_outer_entry cb l s).observed = _
      exact pipeline_outer_entry_observed cb l s
    · intro m2
      rw [hskip, guarded_pipeline_skips cb l m2 c inst args kwargs options s hcond hr]
  · intro htrue
    exact guarded_pipeline_runs cb l m inst args kwargs options s
      (fun c2 hc2 => by
        rw [hcond] at hc2
        injection hc2 with h2
        subst h2
        exact htrue)

/-- Configuration for the C1 witness: condition false, no sampler. -/
def cbC1w : RuleCallbackCfg Unit :=
  { toBaseCallbackState := baseU
    hook_module := "m"
    hook_name := "f"
    conditions := fun l => if l = "pre" then some condFalse else none
    call_count_interval := 0
    debug_log_enabled := false }

/-- Witness for C1 (amended): at the concrete skipped invocation the result
is ok none and the observed events are unchanged. -/
theorem C1_condition_gate_witness :
    ((guarded_pipeline cbC1w ("pre") mNull) () () () optsU s0U).1 = Except.ok none ∧
    ((guarded_pipeline cbC1w ("pre") mNull) () () () optsU s0U).2.observed =
      s0U.observed ++
        (if cbC1w.call_count_interval ≠ 0 ∧
            s0U.call_counts ("pre") + 1 = cbC1w.call_count_interval then
          [Observed.observations ("sqreen_call_counts") s0U.now
            (call_count_observation_key cbC1w ("pre")) cbC1w.call_count_interval]
        else []) :=
  have h := C1_condition_gate cbC1w tPreNull ("pre") mNull condFalse () () () optsU s0U
    (by decide) rfl rfl (guarded_pipeline cbC1w ("pre") mNull)
    (install_wrappers_eq cbC1w tPreNull ("pre") mNull (by decide) rfl)
  have hs := h.1 (Or.inl rfl)
  ⟨hs.1, hs.2.1⟩

/-- Claim C2: the call count sampler with a positive interval K, iterated from
a zero counter: the sampler always invokes the logic it wraps, whatever the
counter state; after n invocations the counter equals n mod K, hence it is
never negative and resets exactly at every Kth invocation, never early; the
sampler observations, keyed rulespack_id/rule_name/phase, are exactly one
value-K record per completed interval; in particular after exactly K
invocations there is exactly one observation carrying K and the counter is 0,
and after K - 1 invocations there is none. -/
theorem C2_call_count_sampling {V : Type} (cb : RuleCallbackCfg V)
    (l : String) (wrapped : Handler V) (inst args kwargs : V)
    (options : PhaseOptions V) (s0 : RTState V)
    (hK : 0 < cb.call_count_interval)
    (hw_counts : ∀ i a k o s, ((wrapped i a k o s).2).call_counts = s.call_counts)
    (hw_obs : ∀ i a k o s,
      sampler_obs (call_count_observation_key cb l) ((wrapped i a k o s).2) =
      sampler_obs (call_count_observation_key cb l) s)
    (h0 : s0.call_counts l = 0)
    (hobs0 : sampler_obs (call_count_observation_key cb l) s0 = []) :
    (∀ (i a k : V) (o : PhaseOptions V) (s : RTState V),
      call_count_wrapper wrapped cb l (call_count_observation_key cb l) i a k o s =
        wrapped i a k o (call_count_update cb l (call_count_observation_key cb l) s)) ∧
    (∀ n : Nat,
      (iterate_handler (call_count_wrapper wrapped cb l (call_count_observation_key cb l))
        inst args kwargs options n s0).call_counts l = (n : Int) % cb.call_count_interval ∧
      0 ≤ (iterate_handler (call_count_wrapper wrapped cb l (call_count_observation_key cb l))
        inst args kwargs options n s0).call_counts l ∧
      sampler_obs (call_count_observation_key cb l)
        (iterate_handler (call_count_wrapper wrapped cb l (call_count_observation_key cb l))
          inst args kwargs options n s0) =
        List.replicate (((n : Int) / cb.call_count_interval).toNat) cb.call_count_interval) ∧
    (iterate_handler (call_count_wrapper wrapped cb l (call_count_observation_key cb l))
      inst args kwargs options cb.call_count_interval.toNat s0).call_counts l = 0 ∧
    sampler_obs (call_count_observation_key cb l)
      (iterate_handler (call_count_wrapper wrapped cb l (call_count_observation_key cb l))
        inst args kwargs options cb.call_count_interval.toNat s0) =
      [cb.call_count_interval] ∧
    sampler_obs (call_count_observation_key cb l)
      (iterate_handler (call_count_wrapper wrapped cb l (call_count_observation_key cb l))
        inst args kwargs options (cb.call_count_interval.toNat - 1) s0) = [] := by
  have inv := call_count_iterate_invariant cb l wrapped inst args kwargs options s0
    hK hw_counts hw_obs h0 hobs0
  have hcast : ((cb.call_count_interval.toNat : Nat) : Int) = cb.call_count_interval :=
    Int.toNat_of_nonneg (le_of_lt hK)
  have hcast2 : ((cb.call_count_interval.toNat - 1 : Nat) : Int) =
      cb.call_count_interval - 1 := by
    omega
  refine ⟨?_, ?_, ?_, ?_, ?_⟩
  · intro i a k o s
    exact call_count_wrapper_runs wrapped cb l (call_count_observation_key cb l) i a k o s
  · intro n
    refine ⟨(inv n).1, ?_, (inv n).2⟩
    rw [(inv n).1]
    exact Int.emod_nonneg _ (ne_of_gt hK)
  · rw [(inv cb.call_count_interval.toNat).1, hcast, Int.emod_self]
  · rw [(inv cb.call_count_interval.toNat).2, hcast,
      Int.ediv_self (ne_of_gt hK)]
    simp
  · rw [(inv (cb.call_count_interval.toNat - 1)).2, hcast2,
      Int.ediv_eq_zero_of_lt (by linarith) (by linarith)]
    simp

/-- A rule callback with a call count interval of 2 and no other decorator. -/
def cbC2w : RuleCallbackCfg Unit :=
  { toBaseCallbackState := baseU
    hook_module := "m"
    hook_name := "f"
    conditions := fun _ => none
    call_count_interval := 2
    debug_log_enabled := false }

/-- Witness for C2 at interval 2: after 2 invocations the counter is 0 and one
observation carrying 2 exists; after 1 invocation there is none. -/
theorem C2_call_count_sampling_witness :
    (iterate_handler (call_count_wrapper mNull cbC2w ("pre")
      (call_count_observation_key cbC2w ("pre"))) () () () optsU 2 s0U).call_counts ("pre") = 0 ∧
    sampler_obs (call_count_observation_key cbC2w ("pre"))
      (iterate_handler (call_count_wrapper mNull cbC2w ("pre")
        (call_count_observation_key cbC2w ("pre"))) () () () optsU 2 s0U) =
      [cbC2w.call_count_interval] ∧
    sampler_obs (call_count_observation_key cbC2w ("pre"))
      (iterate_handler (call_count_wrapper mNull cbC2w ("pre")
        (call_count_observation_key cbC2w ("pre"))) () () () optsU 1 s0U) = [] :=
  have h := C2_call_count_sampling cbC2w ("pre") mNull () () () optsU s0U
    (by decide) (fun _ _ _ _ _ => rfl) (fun _ _ _ _ _ => rfl) rfl rfl
  ⟨h.2.2.1, h.2.2.2.1, h.2.2.2.2⟩

/-- Configuration for the C3 counterexample: debug logging enabled and a
condition tree on pre that evaluates false. -/
def cbC3 : RuleCallbackCfg Unit :=
  { toBaseCallbackState := baseU
    hook_module := "m"
    hook_name := "f"
    conditions := fun l => if l = "pre" then some condFalse else none
    call_count_interval := 0
    debug_log_enabled := true }

/-- Claim C3 counterexample: with debug logging on and a condition that
evaluates false, the handler the code actually installs logs only the skip
message, while the composition claimed by the spec (debug trace outermost)
would log the phase entry first: the two compositions differ observably, so
the debug trace is not outermost. -/
theorem C3_counterexample :
    (RuleCallback.install_wrappers cbC3 tPreNull ("pre")).map
      (fun h => (h () () () optsU s0U).2.logs) ≠
      some ((spec_claimed_pipeline cbC3 ("pre") mNull () () () optsU s0U).2.logs) ∧
    (RuleCallback.install_wrappers cbC3 tPreNull ("pre")).map
      (fun h => (h () () () optsU s0U).2.logs) = some ["not running pre"] ∧
    (spec_claimed_pipeline cbC3 ("pre") mNull () () () optsU s0U).2.logs =
      ["running pre", "not running pre"] := by
  refine ⟨by decide, by decide, by decide⟩

/-- Claim C3 (amended): the effective handler is the composition of the
applicable decorators, innermost to outermost: the debug trace (innermost,
directly around the phase logic), then the condition gate, then the call count
sampler, then the performance monitor outermost; a decorator whose guard is
false is omitted entirely, leaving the layer below unchanged. -/
theorem C3_pipeline_order {V : Type} (cb : RuleCallbackCfg V) (t : PhaseTable V)
    (l : String) (m : Handler V)
    (hl : l ∈ ["pre", "post", "failing"]) (ht : t l = some m) :
    RuleCallback.install_wrappers cb t l = some (guarded_pipeline cb l m) :=
  install_wrappers_eq cb t l m hl ht

/-- Witness for C3 (amended) at the concrete configuration. -/
theorem C3_pipeline_order_witness :
    RuleCallback.install_wrappers cbC3 tPreNull ("pre") =
      some (guarded_pipeline cbC3 ("pre") mNull) :=
  C3_pipeline_order cbC3 tPreNull ("pre") mNull (by decide) rfl

/-- A runner with performance monitoring fully enabled and no budget. -/
def runnerOn : Runner :=
  { budget := none
    performance_metrics := true
    performance_metrics_settings_enabled := true }

/-- Configuration for C5: performance monitoring enabled globally while the
callback does not declare budget support. -/
def cbC5 : RuleCallbackCfg Unit :=
  { toBaseCallbackState := { baseU with runner := some runnerOn }
    hook_module := "m"
    hook_name := "f"
    conditions := fun _ => none
    call_count_interval := 0
    debug_log_enabled := false }

/-- Claim C5 counterexample: the callback does not declare budget support
(SUPPORTS_BUDGET false), yet the installed pre handler opens and closes a
trace scope, so the performance monitor decorator was applied: application
does not require budget support, refuting the claimed iff. -/
theorem C5_counterexample :
    cbC5.SUPPORTS_BUDGET = false ∧
    (RuleCallback.install_wrappers cbC5 tPreNull ("pre")).map
      (fun h => (h () () () optsU s0U).2.trace_log) =
      some [TraceEv.enter (perf_trace_name cbC5 ("pre")),
            TraceEv.close (perf_trace_name cbC5 ("pre"))] := by
  refine ⟨rfl, by decide⟩

/-- Claim C5 (amended): the performance monitor decorator is applied to a
present phase handler exactly when performance monitoring is globally enabled
(runner present, metrics flag on, settings enabled), regardless of the
callback budget support; when applied, it opens the trace scope before the
wrapped handler and closes it on every exit path: the result, returned or
raised, passes through and the close event always follows. -/
theorem C5_perf_monitoring {V : Type} (cb : RuleCallbackCfg V)
    (t : PhaseTable V) (l : String) (m : Handler V)
    (hl : l ∈ ["pre", "post", "failing"]) (ht : t l = some m) :
    (BaseCallback.performance_monitoring_enabled cb.toBaseCallbackState = true →
      RuleCallback.install_wrappers cb t l =
        some (perf_monitoring_wrapper (inner_pipeline cb l m) (perf_trace_name cb l))) ∧
    (BaseCallback.performance_monitoring_enabled cb.toBaseCallbackState = false →
      RuleCallback.install_wrappers cb t l = some (inner_pipeline cb l m)) ∧
    (∀ (wrapped : Handler V) (name : String) (i a k : V) (o : PhaseOptions V)
        (s : RTState V),
      (perf_monitoring_wrapper wrapped name i a k o s).1 =
        (wrapped i a k o { s with trace_log := s.trace_log ++ [TraceEv.enter name] }).1 ∧
      (perf_monitoring_wrapper wrapped name i a k o s).2.trace_log =
        (wrapped i a k o
          { s with trace_log := s.trace_log ++ [TraceEv.enter name] }).2.trace_log ++
          [TraceEv.close name]) := by
  have heq := install_wrappers_eq cb t l m hl ht
  refine ⟨?_, ?_, ?_⟩
  · intro hperf
    rw [heq]
    unfold guarded_pipeline
    rw [if_pos hperf]
  · intro hperf
    rw [heq]
    unfold guarded_pipeline
    rw [if_neg (by rw [hperf]; exact Bool.false_ne_true)]
  · intro wrapped name i a k o s
    exact ⟨rfl, rfl⟩

/-- A phase handler that raises. -/
def mErr : Handler Unit := fun _ _ _ _ s => (Except.error (), s)

/-- Witness for C5 (amended): the monitor is applied to the budget-less
callback under global enablement, and at a raising handler the trace scope is
still closed while the exception passes through. -/
theorem C5_perf_monitoring_witness :
    RuleCallback.install_wrappers cbC5 tPreNull ("pre") =
      some (perf_monitoring_wrapper (inner_pipeline cbC5 ("pre") mNull)
        (perf_trace_name cbC5 ("pre"))) ∧
    (perf_monitoring_wrapper mErr ("sq.rule.pre") () () () optsU s0U).1 =
      (mErr () () () optsU
        { s0U with trace_log := s0U.trace_log ++ [TraceEv.enter ("sq.rule.pre")] }).1 ∧
    (perf_monitoring_wrapper mErr ("sq.rule.pre") () () () optsU s0U).2.trace_log =
      (mErr () () () optsU
        { s0U with trace_log := s0U.trace_log ++ [TraceEv.enter ("sq.rule.pre")] }).2.trace_log ++
        [TraceEv.close ("sq.rule.pre")] :=
  have h := C5_perf_monitoring cbC5 tPreNull ("pre") mNull (by decide) rfl
  ⟨h.1 rfl,
   (h.2.2 mErr ("sq.rule.pre") () () () optsU s0U).1,
   (h.2.2 mErr ("sq.rule.pre") () () () optsU s0U).2⟩

/-- Storage reporting a whitelist match. -/
def storageWL : RuntimeStorage Unit := { storageU with get_whitelist_match := some true }

/-- Configuration for C7: the current request is whitelisted. -/
def cbC7 : RuleCallbackCfg Unit :=
  { toBaseCallbackState := { baseU with storage := storageWL }
    hook_module := "m"
    hook_name := "f"
    conditions := fun _ => none
    call_count_interval := 0
    debug_log_enabled := false }

/-- A pre handler whose phase logic records an attack unconditionally. -/
def mAttack : Handler Unit :=
  fun _ _ _ _ s => (Except.ok none, BaseCallback.record_attack cbC7.toBaseCallbackState none none s)

/-- A phase table exposing the attacking pre handler. -/
def tPreAttack : PhaseTable Unit := fun l => if l = ("pre") then some mAttack else none

/-- Claim C7 counterexample: the storage reports a whitelist match, yet
invoking the effective pre handler records an attack, because neither the
wrapper pipeline nor record_attack consults the whitelist flag: whether a
whitelisted call records an attack depends entirely on the inner phase
logic. -/
theorem C7_counterexample :
    BaseCallback.whitelisted cbC7.toBaseCallbackState = true ∧
    (RuleCallback.install_wrappers cbC7 tPreAttack ("pre")).map
      (fun h => observed_attacks ((h () () () optsU s0U).2)) ≠ some [] := by
  refine ⟨rfl, by decide⟩

/-- Claim C7 (amended): the whitelisted property is exactly the storage
whitelist match (defaulting to false); the decorators themselves never record
an attack, so an invocation of the effective handler records an attack only
when the inner phase logic itself does: for a phase logic that records no
attack, no attack is recorded, whitelisted or not.  Suppressing attack
recording for whitelisted requests is not enforced by this pipeline. -/
theorem C7_whitelist_no_attack {V : Type} (cb : RuleCallbackCfg V)
    (t : PhaseTable V) (l : String) (m : Handler V)
    (hl : l ∈ ["pre", "post", "failing"]) (ht : t l = some m)
    (hm : ∀ (i a k : V) (o : PhaseOptions V) (s : RTState V),
      observed_attacks ((m i a k o s).2) = observed_attacks s) :
    (BaseCallback.whitelisted cb.toBaseCallbackState =
      cb.storage.get_whitelist_match.getD false) ∧
    (∀ h : Handler V, RuleCallback.install_wrappers cb t l = some h →
      ∀ (i a k : V) (o : PhaseOptions V) (s : RTState V),
        observed_attacks ((h i a k o s).2) = observed_attacks s) := by
  refine ⟨rfl, ?_⟩
  intro h hh i a k o s
  rw [install_wrappers_eq cb t l m hl ht] at hh
  injection hh with hh
  subst hh
  rcases hcopt : cb.conditions l with _ | c
  · rw [guarded_pipeline_runs cb l m i a k o s
      (fun c2 hc2 => by rw [hcopt] at hc2; cases hc2)]
    show observed_attacks (pipeline_exit_update cb l _) = _
    rw [observed_attacks_exit, hm, observed_attacks_entry]
  · by_cases hres : c (mk_binding_eval_args cb l i a k o) = some true
    · rw [guarded_pipeline_runs cb l m i a k o s
        (fun c2 hc2 => by
          rw [hcopt] at hc2
          injection hc2 with h2
          subst h2
          exact hres)]
      show observed_attacks (pipeline_exit_update cb l _) = _
      rw [observed_attacks_exit, hm, observed_attacks_entry]
    · have hr : c (mk_binding_eval_args cb l i a k o) = some false ∨
          c (mk_binding_eval_args cb l i a k o) = none := by
        rcases hres2 : c (mk_binding_eval_args cb l i a k o) with _ | b
        · exact Or.inr rfl
        · cases b with
          | true => exact absurd hres2 hres
          | false => exact Or.inl rfl
      rw [guarded_pipeline_skips cb l m c i a k o s hcopt hr]
      show observed_attacks (pipeline_exit_update cb l _) = _
      rw [observed_attacks_exit]
      show observed_attacks (pipeline_outer_entry cb l s) = _
      exact observed_attacks_outer cb l s

/-- Witness for C7 (amended): the whitelisted flag reflects storage and a
no-attack phase logic yields a no-attack effective invocation. -/
theorem C7_whitelist_no_attack_witness :
    (BaseCallback.whitelisted cbC7.toBaseCallbackState =
      cbC7.storage.get_whitelist_match.getD false) ∧
    observed_attacks (((guarded_pipeline cbC7 ("pre") mNull) () () () optsU s0U).2) =
      observed_attacks s0U :=
  have h := C7_whitelist_no_attack cbC7 tPreNull ("pre") mNull (by decide) rfl
    (fun _ _ _ _ _ => rfl)
  ⟨h.1, h.2 (guarded_pipeline cbC7 ("pre") mNull)
    (install_wrappers_eq cbC7 tPreNull ("pre") mNull (by decide) rfl)
    () () () optsU s0U⟩
